import Mathlib

/-!
Verification of the client poller of ppt-summary-maker
(src/frontend/src/App.js), a React component that submits a document to a
backend, records the returned task id, and polls the backend for the task
status until a terminal state is observed.

The mutable state of the component is embedded as a record `AppState` holding the
React state variables (message, isLoading, generatedFilename, currentTaskId,
selectedFile) together with the two refs (pollingIntervalRef,
currentTaskIdRef).  Each event handler of the component becomes a pure state
transformer.  The asynchronous functions are split at their await points:
the synchronous prefix of pollTaskStatus (its entry guards) is `pollCheck`,
applied to the state at request-issue time, and the response handling after
the await is `handlePollResponse`, applied to the state at
response-handling time.  Likewise handleUpload is split into
`handleUploadStart` (everything before the POST) and `handleUploadResponse`
(everything after).  The useEffect that copies the currentTaskId state into
currentTaskIdRef is `syncTaskIdRef`.
-/

namespace PptSummaryMaker

/-- Component state of App.js: the five useState variables plus the two
useRef cells (pollingIntervalRef.current and currentTaskIdRef.current).
A JavaScript interval id is modelled as a Nat; null refs are `none`. -/
structure AppState where
  selectedFile : Option String
  message : String
  isLoading : Bool
  generatedFilename : Option String
  currentTaskId : Option String
  pollingInterval : Option Nat
  currentTaskIdRef : Option String
deriving DecidableEq, Repr

/-- JavaScript truthiness of an optional string: null/undefined and the
empty string are falsy. -/
def jsTruthy : Option String → Bool
  | none => false
  | some s => !s.isEmpty

/-- JavaScript `o || d` for an optional string left operand: the default is
taken when the operand is absent or the empty string. -/
def jsOr (o : Option String) (d : String) : String :=
  match o with
  | none => d
  | some s => if s.isEmpty then d else s

/-- App.js line 6: `const POLLING_INTERVAL = 3000`. -/
def POLLING_INTERVAL : Nat := 3000

/-- App.js lines 25-37: clear the polling interval if one is active,
otherwise do nothing (the caller argument only feeds console.log). -/
def stopPolling (s : AppState) : AppState :=
  if s.pollingInterval.isSome then { s with pollingInterval := none } else s

/-- App.js lines 19-22: the useEffect that copies the currentTaskId state
into currentTaskIdRef whenever the state changes. -/
def syncTaskIdRef (s : AppState) : AppState :=
  { s with currentTaskIdRef := s.currentTaskId }

/-- App.js lines 51-58 (handleFileChange): store the chosen file and reset
message, result, loading flag, polling and task id. -/
def handleFileChange (s : AppState) (file : Option String) : AppState :=
  { stopPolling s with
      selectedFile := file
      message := ""
      generatedFilename := none
      isLoading := false
      currentTaskId := none }

/-- The body of a successful /status response (response.data):
`status`, plus the optional output_filename and error fields. -/
structure StatusInfo where
  status : String
  output_filename : Option String
  error : Option String
deriving DecidableEq, Repr

/-- Outcome of one /status request: either a successful response body, or a
thrown axios error carrying the HTTP status code when a response exists
(error.response.status) and `none` when the request got no response. -/
inductive PollOutcome where
  | success (info : StatusInfo)
  | failure (httpStatus : Option Nat)
deriving DecidableEq, Repr

/-- App.js lines 63-75: the synchronous entry guards of pollTaskStatus,
evaluated in the state at call time.  The /status request is issued iff the
polling interval is active and the task id argument equals the id currently
held in currentTaskIdRef. -/
def pollCheck (s : AppState) (taskId : String) : Bool :=
  s.pollingInterval.isSome && (s.currentTaskIdRef == some taskId)

/-- App.js lines 83-140: the part of pollTaskStatus after the await,
evaluated in the state at response-handling time.  On success the handler
first re-reads currentTaskIdRef and ignores the response if the id changed
during the request (line 84); COMPLETED and FAILED stop polling and clear
the loading flag, any other status at most updates the message.  On error
(catch block, lines 118-140) the handler acts only if the id is still the
active one: a 404 stops polling, clears the loading flag and the task id;
any other error only updates the message. -/
def handlePollResponse (s : AppState) (taskId : String) (out : PollOutcome) :
    AppState :=
  match out with
  | .success info =>
    if s.currentTaskIdRef ≠ some taskId then s
    else if info.status = "COMPLETED" then
      { stopPolling s with
          isLoading := false
          message := "Processing completed successfully!"
          generatedFilename := info.output_filename }
    else if info.status = "FAILED" then
      { stopPolling s with
          isLoading := false
          message := "Error: Processing failed - " ++ jsOr info.error "Unknown error" }
    else
      if s.isLoading then
        { s with message := "Status: " ++ info.status ++ "..." }
      else s
  | .failure httpStatus =>
    if s.currentTaskIdRef = some taskId then
      if httpStatus = some 404 then
        { stopPolling s with
            message := "Error: Task ID not found on server. Please try uploading again."
            isLoading := false
            currentTaskId := none }
      else
        { s with message := "Error checking status. Check console." }
    else s

/-- App.js lines 188-200: one tick of the polling interval.  The task id is
read from currentTaskIdRef at tick time; if it is truthy, pollTaskStatus is
invoked with it (second component), otherwise polling is stopped. -/
def intervalTick (s : AppState) : AppState × Option String :=
  if jsTruthy s.currentTaskIdRef then (s, s.currentTaskIdRef)
  else (stopPolling s, none)

/-- App.js lines 144-158: the part of handleUpload before the POST request.
With no file selected only the message changes and no request is issued
(second component false).  Otherwise polling is stopped and message,
loading flag, result and task id are reset before the request goes out. -/
def handleUploadStart (s : AppState) : AppState × Bool :=
  match s.selectedFile with
  | none => ({ s with message := "Please select a file first." }, false)
  | some _ =>
    ({ stopPolling s with
        message := "Uploading file..."
        isLoading := true
        generatedFilename := none
        currentTaskId := none }, true)

/-- A failed /summarize request as seen by the catch block of handleUpload:
error.response present (with its data.detail field), error.request present
without a response, or any other thrown error with its message. -/
inductive UploadFailure where
  | response (detail : Option String)
  | request
  | setup (msg : String)
deriving DecidableEq, Repr

/-- Outcome of the /summarize POST: a successful response body with its
optional task_id field, or a thrown error. -/
inductive UploadOutcome where
  | success (task_id : Option String)
  | failure (f : UploadFailure)
deriving DecidableEq, Repr

/-- App.js lines 205-221: the catch block of handleUpload.  Polling is
stopped, the loading flag and task id are cleared, and the message
describes the failure. -/
def uploadCatch (s : AppState) (f : UploadFailure) : AppState :=
  let s1 := { stopPolling s with isLoading := false, currentTaskId := none }
  match f with
  | .response detail =>
      { s1 with message := "Error: " ++ jsOr detail "Could not start processing." }
  | .request => { s1 with message := "Error: No response from server." }
  | .setup m => { s1 with message := "Error: " ++ m }

/-- App.js lines 160-221: the part of handleUpload after the await on the
POST.  A truthy task_id is recorded in currentTaskId, the message is set,
the immediate pollTaskStatus call runs only its entry guards synchronously
(no state change), any pre-existing interval is cleared (lines 178-184) and
a fresh interval is installed (line 188).  A missing or empty task_id
throws and lands in the catch block, as does a failed request. -/
def handleUploadResponse (s : AppState) (out : UploadOutcome)
    (newIntervalId : Nat) : AppState :=
  match out with
  | .success task_id =>
    if jsTruthy task_id then
      let s1 := { s with
                    currentTaskId := task_id
                    message := "Status: PROCESSING..." }
      let s2 := if s1.pollingInterval.isSome
                then { s1 with pollingInterval := none } else s1
      { s2 with pollingInterval := some newIntervalId }
    else
      uploadCatch s (.setup "Backend did not return a task_id.")
  | .failure f => uploadCatch s f

/-- The submission is considered failed by handleUpload exactly when the
request threw or the response body lacks a truthy task_id. -/
def submissionFailed : UploadOutcome → Bool
  | .success task_id => !jsTruthy task_id
  | .failure _ => true

/-- Modelled from the spec: the backend Job Store and Pipeline Runner are
not present under src/ (only the frontend is), so the Job lifecycle is
taken from the spec.  The state of a Job is one of PENDING, PROCESSING,
COMPLETED, FAILED. -/
inductive JobState where
  | pending
  | processing
  | completed
  | failed
deriving DecidableEq, Repr

/-- Modelled from the spec: the Pipeline Runner transitions a Job from
PENDING to PROCESSING exactly once before any stage runs, and from
PROCESSING to COMPLETED on success of all stages or to FAILED on any stage
failure; terminal states admit no further transition. -/
def canStep : JobState → JobState → Bool
  | .pending, .processing => true
  | .processing, .completed => true
  | .processing, .failed => true
  | _, _ => false

/-- A sequence of states observed by repeated status queries of one Job,
starting from the state after some already-observed state s: consecutive
observations either repeat the current state (query between two updates)
or witness one Runner transition.  The Status Service reflects updates in
the exact order the Runner applied them, so sampled histories have this
shape. -/
def traceFrom : JobState → List JobState → Bool
  | _, [] => true
  | s, t :: rest => (decide (s = t) || canStep s t) && traceFrom t rest

/-- A full observation sequence of one Job: the Job is created at PENDING,
so the first observation is PENDING and the rest follows traceFrom. -/
def validTrace : List JobState → Bool
  | [] => true
  | s :: rest => decide (s = JobState.pending) && traceFrom s rest

/-- Collapse consecutive duplicate observations, leaving the sequence of
distinct states in the order they were first observed. -/
def collapse : List JobState → List JobState
  | [] => []
  | [a] => [a]
  | a :: b :: rest =>
      if a = b then collapse (b :: rest) else a :: collapse (b :: rest)

/-- Boolean list-prefix test for observation sequences. -/
def isPrefixList : List JobState → List JobState → Bool
  | [], _ => true
  | a :: l, b :: m => if a = b then isPrefixList l m else false
  | _ :: _, [] => false

/-- The canonical remaining lifecycle from a given state when the Job ends
COMPLETED. -/
def canonC : JobState → List JobState
  | .pending => [.pending, .processing, .completed]
  | .processing => [.processing, .completed]
  | .completed => [.completed]
  | .failed => [.failed]

/-- The canonical remaining lifecycle from a given state when the Job ends
FAILED. -/
def canonF : JobState → List JobState
  | .pending => [.pending, .processing, .failed]
  | .processing => [.processing, .failed]
  | .completed => [.completed]
  | .failed => [.failed]

/-- A concrete component state mid-poll: a file is selected, task id a is
active (state and ref agree), an interval with id 7 is running and the
loading flag is set. -/
def sampleState : AppState :=
  { selectedFile := some "doc.pdf"
    message := ""
    isLoading := true
    generatedFilename := none
    currentTaskId := some "a"
    pollingInterval := some 7
    currentTaskIdRef := some "a" }

/-- A concrete component state before any interaction: nothing selected,
nothing active. -/
def idleState : AppState :=
  { selectedFile := none
    message := ""
    isLoading := false
    generatedFilename := none
    currentTaskId := none
    pollingInterval := none
    currentTaskIdRef := none }

/-! Helper lemmas shared by the claim theorems. -/

/-- stopPolling always leaves the interval cleared and touches nothing
else, whether or not an interval was active. -/
lemma stopPolling_eq (s : AppState) :
    stopPolling s = { s with pollingInterval := none } := by
  cases s with
  | mk f m l g c p r => cases p <;> simp [stopPolling]

/-- A status response whose task id is not the one currently held in
currentTaskIdRef leaves the state untouched, for every outcome. -/
lemma handlePollResponse_stale (s : AppState) (taskId : String)
    (out : PollOutcome) (h : s.currentTaskIdRef ≠ some taskId) :
    handlePollResponse s taskId out = s := by
  cases out with
  | success info => simp [handlePollResponse, h]
  | failure httpStatus => simp [handlePollResponse, h]

/-- Every message built by the catch block of handleUpload decomposes as
the literal Error followed by a remainder. -/
lemma error_message_split (x : String) :
    "Error: " ++ x = "Error" ++ (": " ++ x) := by
  conv_lhs => rw [show ("Error: " : String) = "Error" ++ ": " from by decide]
  rw [String.append_assoc]

/-- The catch block of handleUpload always leaves no interval, loading flag
off, no task id, and a message starting with Error. -/
lemma uploadCatch_fields (s : AppState) (f : UploadFailure) :
    (uploadCatch s f).pollingInterval = none ∧
    (uploadCatch s f).isLoading = false ∧
    (uploadCatch s f).currentTaskId = none ∧
    ∃ rest, (uploadCatch s f).message = "Error" ++ rest := by
  cases f with
  | response detail =>
    refine ⟨?_, rfl, rfl, ": " ++ jsOr detail "Could not start processing.", ?_⟩
    · simp [uploadCatch, stopPolling_eq]
    · simpa [uploadCatch] using error_message_split _
  | request =>
    refine ⟨?_, rfl, rfl, ": No response from server.", ?_⟩
    · simp [uploadCatch, stopPolling_eq]
    · simp [uploadCatch, String.append_assoc]
  | setup m =>
    refine ⟨?_, rfl, rfl, ": " ++ m, ?_⟩
    · simp [uploadCatch, stopPolling_eq]
    · simpa [uploadCatch] using error_message_split _

/-- Walking the Runner relation from state s, the collapsed observation
sequence headed by s is a prefix of the canonical lifecycle from s ending
COMPLETED or of the one ending FAILED. -/
lemma collapse_traceFrom_canon (l : List JobState) :
    ∀ s : JobState, traceFrom s l = true →
      isPrefixList (collapse (s :: l)) (canonC s) = true ∨
      isPrefixList (collapse (s :: l)) (canonF s) = true := by
  induction l with
  | nil =>
    intro s _
    cases s <;> decide
  | cons t rest ih =>
    intro s h
    simp only [traceFrom, Bool.and_eq_true, Bool.or_eq_true,
      decide_eq_true_eq] at h
    obtain ⟨hst, htrace⟩ := h
    rcases hst with hst | hst
    · subst hst
      simpa [collapse] using ih s htrace
    · cases s <;> cases t <;> simp [canStep] at hst
      · rcases ih JobState.processing htrace with hc | hf
        · exact Or.inl (by simpa [collapse, isPrefixList, canonC] using hc)
        · exact Or.inr (by simpa [collapse, isPrefixList, canonF] using hf)
      · rcases ih JobState.completed htrace with hc | hf
        · exact Or.inl (by simpa [collapse, isPrefixList, canonC] using hc)
        · exact Or.inl (by simpa [collapse, isPrefixList, canonC, canonF] using hf)
      · rcases ih JobState.failed htrace with hc | hf
        · exact Or.inr (by simpa [collapse, isPrefixList, canonF, canonC] using hc)
        · exact Or.inr (by simpa [collapse, isPrefixList, canonF] using hf)

/-! Claim theorems. -/

/-- C1: a status response handled while its task id differs from the id
held in currentTaskIdRef at handling time changes no UI state (message,
isLoading, generatedFilename, currentTaskId) and neither stops nor
restarts polling, for every possible outcome of the query; the handler
re-reads the ref after the await rather than trusting the pre-await
snapshot. -/
theorem stale_status_response_changes_nothing (s : AppState) (taskId : String)
    (out : PollOutcome) (h : s.currentTaskIdRef ≠ some taskId) :
    handlePollResponse s taskId out = s :=
  handlePollResponse_stale s taskId out h

/-- Witness for C1 at a concrete state: a COMPLETED response for task b
arriving while the ref holds task a is ignored entirely. -/
theorem stale_status_response_changes_nothing_witness :
    sampleState.currentTaskIdRef ≠ some "b" ∧
    handlePollResponse sampleState "b"
      (.success ⟨"COMPLETED", some "out.pptx", none⟩) = sampleState :=
  ⟨by decide,
   stale_status_response_changes_nothing sampleState "b"
     (.success ⟨"COMPLETED", some "out.pptx", none⟩) (by decide)⟩

/-- C2: a status response for the currently active task id that reports
COMPLETED or FAILED, or fails with HTTP 404, clears the polling interval
and the loading flag, and afterwards the entry guard of pollTaskStatus
refuses to issue any further query for that id. -/
theorem terminal_or_notfound_stops_polling (s : AppState) (taskId : String)
    (out : PollOutcome) (hid : s.currentTaskIdRef = some taskId)
    (hterm : (∃ info, out = .success info ∧
                (info.status = "COMPLETED" ∨ info.status = "FAILED")) ∨
             out = .failure (some 404)) :
    (handlePollResponse s taskId out).pollingInterval = none ∧
    (handlePollResponse s taskId out).isLoading = false ∧
    pollCheck (handlePollResponse s taskId out) taskId = false := by
  rcases hterm with ⟨info, rfl, hst | hst⟩ | rfl
  · simp [handlePollResponse, hid, hst, stopPolling_eq, pollCheck]
  · have hne : info.status ≠ "COMPLETED" := by
      rw [hst]; decide
    simp [handlePollResponse, hid, hst, hne, stopPolling_eq, pollCheck]
  · simp [handlePollResponse, hid, stopPolling_eq, pollCheck]

/-- Witness for C2 at a concrete state: a COMPLETED response for the
active task a clears the interval and the loading flag. -/
theorem terminal_or_notfound_stops_polling_witness :
    sampleState.currentTaskIdRef = some "a" ∧
    ((handlePollResponse sampleState "a"
        (.success ⟨"COMPLETED", some "out.pptx", none⟩)).pollingInterval = none ∧
     (handlePollResponse sampleState "a"
        (.success ⟨"COMPLETED", some "out.pptx", none⟩)).isLoading = false ∧
     pollCheck (handlePollResponse sampleState "a"
        (.success ⟨"COMPLETED", some "out.pptx", none⟩)) "a" = false) :=
  ⟨rfl,
   terminal_or_notfound_stops_polling sampleState "a"
     (.success ⟨"COMPLETED", some "out.pptx", none⟩) rfl
     (Or.inl ⟨⟨"COMPLETED", some "out.pptx", none⟩, rfl, Or.inl rfl⟩)⟩

/-- C3: starting an upload with a file selected stops any running interval
and clears the task id and previous result before the POST is issued, and
once the synchronizing effect has copied the cleared task id into
currentTaskIdRef, every response for any stale task id is discarded. -/
theorem new_upload_resets_before_request (s : AppState)
    (h : s.selectedFile.isSome = true) :
    (handleUploadStart s).2 = true ∧
    (handleUploadStart s).1.pollingInterval = none ∧
    (handleUploadStart s).1.currentTaskId = none ∧
    (handleUploadStart s).1.generatedFilename = none ∧
    (syncTaskIdRef (handleUploadStart s).1).currentTaskIdRef = none ∧
    ∀ (oldId : String) (out : PollOutcome),
      handlePollResponse (syncTaskIdRef (handleUploadStart s).1) oldId out =
        syncTaskIdRef (handleUploadStart s).1 := by
  obtain ⟨f, hf⟩ := Option.isSome_iff_exists.mp h
  refine ⟨?_, ?_, ?_, ?_, ?_, ?_⟩
  · simp [handleUploadStart, hf]
  · simp [handleUploadStart, hf, stopPolling_eq]
  · simp [handleUploadStart, hf, stopPolling_eq]
  · simp [handleUploadStart, hf, stopPolling_eq]
  · simp [handleUploadStart, hf, stopPolling_eq, syncTaskIdRef]
  · intro oldId out
    apply handlePollResponse_stale
    simp [handleUploadStart, hf, stopPolling_eq, syncTaskIdRef]

/-- Witness for C3 at a concrete state with a selected file, an active
interval and a live task id. -/
theorem new_upload_resets_before_request_witness :
    sampleState.selectedFile.isSome = true ∧
    (handleUploadStart sampleState).2 = true ∧
    (handleUploadStart sampleState).1.pollingInterval = none ∧
    (handleUploadStart sampleState).1.currentTaskId = none ∧
    (handleUploadStart sampleState).1.generatedFilename = none ∧
    (syncTaskIdRef (handleUploadStart sampleState).1).currentTaskIdRef = none ∧
    handlePollResponse (syncTaskIdRef (handleUploadStart sampleState).1) "a"
        (.success ⟨"COMPLETED", some "out.pptx", none⟩) =
      syncTaskIdRef (handleUploadStart sampleState).1 := by
  obtain ⟨h1, h2, h3, h4, h5, h6⟩ := new_upload_resets_before_request sampleState rfl
  exact ⟨rfl, h1, h2, h3, h4, h5, h6 "a" (.success ⟨"COMPLETED", some "out.pptx", none⟩)⟩

/-- C4: a successful submission whose response carries a truthy task_id
records that id as the active task id and installs exactly one fresh
polling interval (any pre-existing interval having been cleared first,
whatever the prior state was); the fixed period is POLLING_INTERVAL = 3000
milliseconds, and every interval tick that issues a poll does so with the
id read from currentTaskIdRef at tick time. -/
theorem successful_submission_starts_polling (s : AppState) (tid : String)
    (iv : Nat) (h : tid.isEmpty = false) :
    (handleUploadResponse s (.success (some tid)) iv).currentTaskId = some tid ∧
    (handleUploadResponse s (.success (some tid)) iv).pollingInterval = some iv ∧
    POLLING_INTERVAL = 3000 ∧
    ∀ (s' : AppState) (t : String),
      (intervalTick s').2 = some t → s'.currentTaskIdRef = some t := by
  refine ⟨?_, ?_, rfl, ?_⟩
  · simp only [handleUploadResponse, jsTruthy, h, Bool.not_false, if_true]
    split <;> rfl
  · simp only [handleUploadResponse, jsTruthy, h, Bool.not_false, if_true]
  · intro s' t ht
    unfold intervalTick at ht
    split at ht
    · simpa using ht
    · simp at ht

/-- Witness for C4 at a concrete state with a stale interval still alive:
the new interval id 9 replaces it and task b becomes active; a tick whose
ref holds task a polls task a. -/
theorem successful_submission_starts_polling_witness :
    ("b" : String).isEmpty = false ∧
    (handleUploadResponse sampleState (.success (some "b")) 9).currentTaskId
      = some "b" ∧
    (handleUploadResponse sampleState (.success (some "b")) 9).pollingInterval
      = some 9 ∧
    POLLING_INTERVAL = 3000 ∧
    sampleState.currentTaskIdRef = some "a" := by
  obtain ⟨h1, h2, h3, h4⟩ :=
    successful_submission_starts_polling sampleState "b" 9 rfl
  exact ⟨rfl, h1, h2, h3, h4 sampleState "a" rfl⟩

/-- C5: a status-query error for the active task id that is not an HTTP
404 changes only the displayed message; the interval is not cleared, the
loading flag and task id are untouched, and iterating the same error any
number of times still leaves the interval running, so polling continues
indefinitely under persistent transient errors. -/
theorem transient_error_keeps_polling (s : AppState) (taskId : String)
    (httpStatus : Option Nat) (hid : s.currentTaskIdRef = some taskId)
    (h404 : httpStatus ≠ some 404) :
    handlePollResponse s taskId (.failure httpStatus) =
      { s with message := "Error checking status. Check console." } ∧
    ∀ n : Nat,
      ((fun st => handlePollResponse st taskId (.failure httpStatus))^[n] s).pollingInterval
        = s.pollingInterval := by
  have key : ∀ st : AppState, st.currentTaskIdRef = some taskId →
      handlePollResponse st taskId (.failure httpStatus) =
        { st with message := "Error checking status. Check console." } := by
    intro st hst
    simp [handlePollResponse, hst, h404]
  have inv : ∀ n : Nat,
      ((fun st => handlePollResponse st taskId (.failure httpStatus))^[n] s).currentTaskIdRef
          = some taskId ∧
      ((fun st => handlePollResponse st taskId (.failure httpStatus))^[n] s).pollingInterval
          = s.pollingInterval := by
    intro n
    induction n with
    | zero => exact ⟨hid, rfl⟩
    | succ n ih =>
      rw [Function.iterate_succ_apply', key _ ih.1]
      exact ⟨ih.1, ih.2⟩
  exact ⟨key s hid, fun n => (inv n).2⟩

/-- Witness for C5 at a concrete state: an HTTP 500 for the active task a
only rewrites the message, and after three consecutive such errors the
interval is still the original one. -/
theorem transient_error_keeps_polling_witness :
    sampleState.currentTaskIdRef = some "a" ∧
    (some 500 : Option Nat) ≠ some 404 ∧
    handlePollResponse sampleState "a" (.failure (some 500)) =
      { sampleState with message := "Error checking status. Check console." } ∧
    ((fun st => handlePollResponse st "a" (.failure (some 500)))^[3] sampleState).pollingInterval
      = sampleState.pollingInterval := by
  obtain ⟨h1, h2⟩ :=
    transient_error_keeps_polling sampleState "a" (some 500) rfl (by decide)
  exact ⟨rfl, by decide, h1, h2 3⟩

/-- C6: under the spec-modelled Job lifecycle (the backend is not part of
src/), every observation sequence of one Job through repeated status
queries, after collapsing consecutive duplicates, is a prefix of PENDING,
PROCESSING, COMPLETED or of PENDING, PROCESSING, FAILED: states appear in
order, PROCESSING is not skipped before a terminal state, and no state
recurs after a later one. -/
theorem observed_state_sequence_canonical (l : List JobState)
    (h : validTrace l = true) :
    isPrefixList (collapse l)
      [JobState.pending, JobState.processing, JobState.completed] = true ∨
    isPrefixList (collapse l)
      [JobState.pending, JobState.processing, JobState.failed] = true := by
  match l with
  | [] => left; decide
  | s :: rest =>
    simp only [validTrace, Bool.and_eq_true, decide_eq_true_eq] at h
    obtain ⟨hs, htrace⟩ := h
    subst hs
    simpa [canonC, canonF] using
      collapse_traceFrom_canon rest JobState.pending htrace

/-- Witness for C6 on a concrete observation sequence with stuttering:
PENDING observed twice, then PROCESSING, then COMPLETED. -/
theorem observed_state_sequence_canonical_witness :
    validTrace [JobState.pending, JobState.pending, JobState.processing,
      JobState.completed] = true ∧
    (isPrefixList (collapse [JobState.pending, JobState.pending,
        JobState.processing, JobState.completed])
      [JobState.pending, JobState.processing, JobState.completed] = true ∨
     isPrefixList (collapse [JobState.pending, JobState.pending,
        JobState.processing, JobState.completed])
      [JobState.pending, JobState.processing, JobState.failed] = true) :=
  ⟨by decide,
   observed_state_sequence_canonical
     [JobState.pending, JobState.pending, JobState.processing,
       JobState.completed] (by decide)⟩

/-- C7: when the /summarize request throws or its response lacks a truthy
task_id, handleUpload resolves to an error state: no interval is running,
the loading flag is off, the active task id is null, the message starts
with Error, and the entry guard of pollTaskStatus refuses to issue a
status query for any id. -/
theorem failed_submission_resolves_to_error (s : AppState)
    (out : UploadOutcome) (iv : Nat) (h : submissionFailed out = true) :
    (handleUploadResponse s out iv).pollingInterval = none ∧
    (handleUploadResponse s out iv).isLoading = false ∧
    (handleUploadResponse s out iv).currentTaskId = none ∧
    (∃ rest, (handleUploadResponse s out iv).message = "Error" ++ rest) ∧
    ∀ t : String, pollCheck (handleUploadResponse s out iv) t = false := by
  have hcatch : ∀ f : UploadFailure, handleUploadResponse s out iv = uploadCatch s f →
      (handleUploadResponse s out iv).pollingInterval = none ∧
      (handleUploadResponse s out iv).isLoading = false ∧
      (handleUploadResponse s out iv).currentTaskId = none ∧
      (∃ rest, (handleUploadResponse s out iv).message = "Error" ++ rest) ∧
      ∀ t : String, pollCheck (handleUploadResponse s out iv) t = false := by
    intro f hf
    obtain ⟨h1, h2, h3, h4⟩ := uploadCatch_fields s f
    rw [hf]
    refine ⟨h1, h2, h3, h4, ?_⟩
    intro t
    simp [pollCheck, h1]
  cases out with
  | success task_id =>
    have hfalse : jsTruthy task_id = false := by
      simpa [submissionFailed] using h
    exact hcatch (.setup "Backend did not return a task_id.")
      (by simp [handleUploadResponse, hfalse])
  | failure f =>
    exact hcatch f rfl

/-- Witness for C7 at a concrete state: a response without a task_id
tears down polling and reports an error message. -/
theorem failed_submission_resolves_to_error_witness :
    submissionFailed (.success none) = true ∧
    (handleUploadResponse sampleState (.success none) 9).pollingInterval = none ∧
    (handleUploadResponse sampleState (.success none) 9).isLoading = false ∧
    (handleUploadResponse sampleState (.success none) 9).currentTaskId = none ∧
    (∃ rest,
      (handleUploadResponse sampleState (.success none) 9).message =
        "Error" ++ rest) ∧
    pollCheck (handleUploadResponse sampleState (.success none) 9) "a" = false := by
  obtain ⟨h1, h2, h3, h4, h5⟩ :=
    failed_submission_resolves_to_error sampleState (.success none) 9 rfl
  exact ⟨rfl, h1, h2, h3, h4, h5 "a"⟩

/-- C8: stopPolling is idempotent: applying it twice equals applying it
once, after any application the interval ref is null, and applying it when
no interval is active is the identity. -/
theorem stopPolling_idempotent (s : AppState) :
    stopPolling (stopPolling s) = stopPolling s ∧
    (stopPolling s).pollingInterval = none ∧
    (s.pollingInterval = none → stopPolling s = s) := by
  refine ⟨?_, ?_, ?_⟩
  · simp [stopPolling_eq]
  · simp [stopPolling_eq]
  · intro h
    simp [stopPolling, h]

/-- Witness for C8 at a concrete idle state with no interval active. -/
theorem stopPolling_idempotent_witness :
    stopPolling (stopPolling idleState) = stopPolling idleState ∧
    (stopPolling idleState).pollingInterval = none ∧
    stopPolling idleState = idleState := by
  obtain ⟨h1, h2, h3⟩ := stopPolling_idempotent idleState
  exact ⟨h1, h2, h3 rfl⟩

/-- C9: invoking handleUpload with no file selected issues no request and
changes nothing except setting the message asking for a file; the loading
flag, task id, result filename and polling interval are untouched. -/
theorem upload_without_file_only_sets_message (s : AppState)
    (h : s.selectedFile = none) :
    handleUploadStart s =
      ({ s with message := "Please select a file first." }, false) := by
  simp [handleUploadStart, h]

/-- Witness for C9 at the concrete idle state with no file selected. -/
theorem upload_without_file_only_sets_message_witness :
    idleState.selectedFile = none ∧
    handleUploadStart idleState =
      ({ idleState with message := "Please select a file first." }, false) :=
  ⟨rfl, upload_without_file_only_sets_message idleState rfl⟩

/-- C10: a status response for the active task id whose status is neither
COMPLETED nor FAILED changes at most the displayed message: the interval,
task id, loading flag and result filename are exactly as before, so
polling keeps running. -/
theorem nonterminal_status_preserves_state (s : AppState) (taskId : String)
    (info : StatusInfo) (hid : s.currentTaskIdRef = some taskId)
    (hc : info.status ≠ "COMPLETED") (hf : info.status ≠ "FAILED") :
    (handlePollResponse s taskId (.success info) = s ∨
     handlePollResponse s taskId (.success info) =
       { s with message := "Status: " ++ info.status ++ "..." }) ∧
    (handlePollResponse s taskId (.success info)).pollingInterval
        = s.pollingInterval ∧
    (handlePollResponse s taskId (.success info)).currentTaskId
        = s.currentTaskId ∧
    (handlePollResponse s taskId (.success info)).isLoading = s.isLoading ∧
    (handlePollResponse s taskId (.success info)).generatedFilename
        = s.generatedFilename := by
  have hr : handlePollResponse s taskId (.success info) =
      if s.isLoading then
        { s with message := "Status: " ++ info.status ++ "..." }
      else s := by
    simp [handlePollResponse, hid, hc, hf]
  rw [hr]
  by_cases hl : s.isLoading <;> simp [hl]

/-- Witness for C10 at a concrete loading state: a PROCESSING response for
the active task a only rewrites the message. -/
theorem nonterminal_status_preserves_state_witness :
    sampleState.currentTaskIdRef = some "a" ∧
    ("PROCESSING" : String) ≠ "COMPLETED" ∧
    ("PROCESSING" : String) ≠ "FAILED" ∧
    ((handlePollResponse sampleState "a"
        (.success ⟨"PROCESSING", none, none⟩) = sampleState ∨
      handlePollResponse sampleState "a"
        (.success ⟨"PROCESSING", none, none⟩) =
        { sampleState with message := "Status: " ++ "PROCESSING" ++ "..." }) ∧
     (handlePollResponse sampleState "a"
        (.success ⟨"PROCESSING", none, none⟩)).pollingInterval
         = sampleState.pollingInterval ∧
     (handlePollResponse sampleState "a"
        (.success ⟨"PROCESSING", none, none⟩)).currentTaskId
         = sampleState.currentTaskId ∧
     (handlePollResponse sampleState "a"
        (.success ⟨"PROCESSING", none, none⟩)).isLoading
         = sampleState.isLoading ∧
     (handlePollResponse sampleState "a"
        (.success ⟨"PROCESSING", none, none⟩)).generatedFilename
         = sampleState.generatedFilename) :=
  ⟨rfl, by decide, by decide,
   nonterminal_status_preserves_state sampleState "a"
     ⟨"PROCESSING", none, none⟩ rfl (by decide) (by decide)⟩

end PptSummaryMaker
